import Mathlib

/-!
Verification of `src/sandbox/sandbox.h` (the V8 sandbox).

The header defines the `Sandbox` class: geometry fields (`base_`, `end_`,
`size_`, `reservation_base_`, `reservation_size_`), lifecycle flags
(`initialized_`, `disabled_`), the `SandboxedPointerConstants` value object,
bounds checking (`Contains`), and address-of-field accessors.  These are
embedded below directly from the header.

The bodies of `Initialize`, `TearDown` and `InitializeConstants` live in
`sandbox.cc`, which is not part of the available sources; they are modelled
from the specification (guard-region full reservation, partial-reservation
fallback, atomic failure, teardown resetting geometry to the zero
sentinels).  A step relation over these operations defines the reachable
states of the sandbox, over which the lifecycle invariants are proved.

Machine integers: `Address` and `size_t` are 64-bit unsigned.  They are
embedded as `Nat`; the one place where the source can wrap (the sum
`base_ + size_` inside `Contains`) takes an explicit `% 2 ^ 64`.
-/

namespace V8Sandbox

/-- The null address sentinel `kNullAddress` used to default-initialize the
geometry fields.  Virtual addresses (the 64-bit unsigned `Address` of
`v8::internal`) are embedded as `Nat`; the sums that can wrap in the
source take an explicit `% 2 ^ 64`. -/
def kNullAddress : Nat := 0

/-- `Sandbox::SandboxedPointerConstants` (sandbox.h, lines 179-195): a value
object holding the single constant `empty_backing_store_buffer_`, which
defaults to the null sentinel `0`. -/
structure SandboxedPointerConstants where
  empty_backing_store_buffer_ : Nat := 0
deriving Repr, DecidableEq

/-- Value accessor `empty_backing_store_buffer()` (sandbox.h, line 181). -/
def SandboxedPointerConstants.empty_backing_store_buffer
    (c : SandboxedPointerConstants) : Nat :=
  c.empty_backing_store_buffer_

/-- Abstract storage locations inside a `SandboxedPointerConstants` object.
The source exposes the raw machine address of the field
(`&empty_backing_store_buffer_`); the embedding replaces that raw address by
a tag naming the field, and `derefAt` below plays the role of dereferencing
it against the current object state. -/
inductive ConstantsLocation where
  | emptyBackingStoreBufferField
deriving Repr, DecidableEq

/-- Address-of accessor `empty_backing_store_buffer_address()` (sandbox.h,
line 184): returns the storage location of the field itself, not its
value. -/
def SandboxedPointerConstants.empty_backing_store_buffer_address
    (_c : SandboxedPointerConstants) : ConstantsLocation :=
  ConstantsLocation.emptyBackingStoreBufferField

/-- Dereferencing a storage location of the constants object yields the value
currently stored in the named field. -/
def SandboxedPointerConstants.derefAt (c : SandboxedPointerConstants) :
    ConstantsLocation → Nat
  | ConstantsLocation.emptyBackingStoreBufferField =>
      c.empty_backing_store_buffer_

/-- Setter `set_empty_backing_store_buffer(value)` (sandbox.h, line 187),
used only during sandbox initialization. -/
def SandboxedPointerConstants.set_empty_backing_store_buffer
    (_c : SandboxedPointerConstants) (value : Nat) :
    SandboxedPointerConstants :=
  { empty_backing_store_buffer_ := value }

/-- `Reset()` (sandbox.h, line 191): restores the null sentinel; used during
teardown. -/
def SandboxedPointerConstants.Reset (_c : SandboxedPointerConstants) :
    SandboxedPointerConstants :=
  { empty_backing_store_buffer_ := 0 }

/-- The `Sandbox` class state (sandbox.h, lines 235-257).  The two owned
capability objects (`address_space_`, `sandbox_page_allocator_`) are
`unique_ptr`s whose pointees are external collaborators; only their
presence (null / non-null) is modelled. -/
structure Sandbox where
  base_ : Nat := kNullAddress
  end_ : Nat := kNullAddress
  size_ : Nat := 0
  reservation_base_ : Nat := kNullAddress
  reservation_size_ : Nat := 0
  initialized_ : Bool := false
  disabled_ : Bool := false
  address_space_ : Option Unit := none
  sandbox_page_allocator_ : Option Unit := none
  constants_ : SandboxedPointerConstants := {}
deriving Repr, DecidableEq

/-- `is_initialized()` (sandbox.h, line 95). -/
def Sandbox.is_initialized (s : Sandbox) : Bool := s.initialized_

/-- `is_disabled()` (sandbox.h, line 103). -/
def Sandbox.is_disabled (s : Sandbox) : Bool := s.disabled_

/-- `is_enabled()` (sandbox.h, line 104). -/
def Sandbox.is_enabled (s : Sandbox) : Bool := !s.disabled_

/-- `is_partially_reserved()` (sandbox.h, line 116): literally
`reservation_size_ < size_`. -/
def Sandbox.is_partially_reserved (s : Sandbox) : Bool :=
  decide (s.reservation_size_ < s.size_)

/-- `base()` (sandbox.h, line 125). -/
def Sandbox.base (s : Sandbox) : Nat := s.base_

/-- `size()` (sandbox.h, line 137). -/
def Sandbox.size (s : Sandbox) : Nat := s.size_

/-- `reservation_size()` (sandbox.h, line 146). -/
def Sandbox.reservation_size (s : Sandbox) : Nat := s.reservation_size_

/-- `Disable()` (sandbox.h, lines 80-83): `CHECK(!initialized_)` then
`disabled_ = true`.  The failing `CHECK` (an immediate process abort, i.e. a
signalled precondition violation) is modelled as `none`. -/
def Sandbox.Disable (s : Sandbox) : Option Sandbox :=
  if s.initialized_ then none
  else some { s with disabled_ := true }

/-- `Contains(Address addr)` (sandbox.h, lines 167-169):
`addr >= base_ && addr < base_ + size_`, where the sum of the two 64-bit
operands wraps modulo `2 ^ 64`. -/
def Sandbox.Contains (s : Sandbox) (addr : Nat) : Bool :=
  decide (s.base_ ≤ addr) && decide (addr < (s.base_ + s.size_) % 2 ^ 64)

/-- `Contains(void* ptr)` (sandbox.h, lines 174-176): reinterprets the
pointer as an integer address (the identity on the numeric value) and
delegates to the `Address` overload. -/
def Sandbox.ContainsPtr (s : Sandbox) (ptr : Nat) : Bool :=
  s.Contains ptr

/-- Abstract storage locations of the three geometry fields of a `Sandbox`
whose machine addresses the source exposes (`&base_`, `&end_`, `&size_`).
`Sandbox.deref` plays the role of dereferencing such a location against the
current object state. -/
inductive SandboxLocation where
  | baseField
  | endField
  | sizeField
deriving Repr, DecidableEq

/-- `base_address()` (sandbox.h, line 199): the storage location of the
`base_` field itself, not its value. -/
def Sandbox.base_address (_s : Sandbox) : SandboxLocation :=
  SandboxLocation.baseField

/-- `end_address()` (sandbox.h, line 200): the storage location of the
`end_` field itself. -/
def Sandbox.end_address (_s : Sandbox) : SandboxLocation :=
  SandboxLocation.endField

/-- `size_address()` (sandbox.h, line 201): the storage location of the
`size_` field itself. -/
def Sandbox.size_address (_s : Sandbox) : SandboxLocation :=
  SandboxLocation.sizeField

/-- Dereferencing a field-storage location of the sandbox yields the value
currently stored in the named field. -/
def Sandbox.deref (s : Sandbox) : SandboxLocation → Nat
  | SandboxLocation.baseField => s.base_
  | SandboxLocation.endField => s.end_
  | SandboxLocation.sizeField => s.size_

/-- The `v8::VirtualAddressSpace` capability at its interface boundary: an
allocation granularity and a reservation primitive that, asked for a number
of bytes, either returns the base address of a fresh reservation or fails.
This is the external collaborator handed to `Initialize`. -/
structure VirtualAddressSpace where
  allocation_granularity : Nat
  reserve : Nat → Option Nat

/-- Well-formedness of an address-space capability: the granularity is
positive, and every successful reservation returns a non-null base address
with the whole reserved range inside the canonical user address space
(below `2 ^ 48`, as on the 64-bit platforms the sandbox targets). -/
def VirtualAddressSpace.WellFormed (vas : VirtualAddressSpace) : Prop :=
  0 < vas.allocation_granularity ∧
  ∀ n r, vas.reserve n = some r → 0 < r ∧ r + n ≤ 2 ^ 48

/-- Modelled from the spec: `Sandbox::InitializeConstants` (declared at
sandbox.h line 233, body in sandbox.cc, which is not under src/).  During
initialization the empty-backing-store constant is set to a specific
address inside the sandbox; the exact address chosen is not fixed by the
spec, so the sandbox base is used as its representative. -/
def Sandbox.InitializeConstants (s : Sandbox) : Sandbox :=
  { s with constants_ := s.constants_.set_empty_backing_store_buffer s.base_ }

/-- Modelled from the spec: `Sandbox::Initialize(vas)` together with its
private helpers `Initialize(vas, size, use_guard_regions)` and
`InitializeAsPartiallyReservedSandbox(vas, size, size_to_reserve)`
(declared at sandbox.h lines 72, 219, 227; bodies in sandbox.cc, which is
not under src/).  The spec leaves the default sandbox size, guard-region
size and fallback size as injectable configuration, so they are explicit
parameters here.  Per the spec: first a full reservation of
`size + 2*guard_region_size` is attempted, whose inner `size`-byte region
becomes `[base, end)`; on failure a smaller reservation of
`size_to_reserve` backs an emulated subspace that still advertises the
full logical `size`, without guard regions; if that also fails,
initialization fails and no state is mutated.  Returns the C++ `bool`
result paired with the post state. -/
def Sandbox.Initialize (s : Sandbox) (vas : VirtualAddressSpace)
    (size guard_region_size size_to_reserve : Nat) : Bool × Sandbox :=
  match vas.reserve (size + 2 * guard_region_size) with
  | some r =>
      (true,
        ({ s with
            base_ := r + guard_region_size,
            end_ := r + guard_region_size + size,
            size_ := size,
            reservation_base_ := r,
            reservation_size_ := size + 2 * guard_region_size,
            initialized_ := true,
            address_space_ := some (),
            sandbox_page_allocator_ := some () : Sandbox }).InitializeConstants)
  | none =>
      match vas.reserve size_to_reserve with
      | some r =>
          (true,
            ({ s with
                base_ := r,
                end_ := r + size,
                size_ := size,
                reservation_base_ := r,
                reservation_size_ := size_to_reserve,
                initialized_ := true,
                address_space_ := some (),
                sandbox_page_allocator_ := some () : Sandbox }).InitializeConstants)
      | none => (false, s)

/-- Modelled from the spec: `Sandbox::TearDown` (declared at sandbox.h line
90, body in sandbox.cc, which is not under src/).  Releases the owned
capabilities, resets every geometry field to its zero sentinel, resets the
constants, and clears `initialized_`. -/
def Sandbox.TearDown (s : Sandbox) : Sandbox :=
  { s with
      base_ := kNullAddress,
      end_ := kNullAddress,
      size_ := 0,
      reservation_base_ := kNullAddress,
      reservation_size_ := 0,
      initialized_ := false,
      address_space_ := none,
      sandbox_page_allocator_ := none,
      constants_ := s.constants_.Reset }

/-- `EmptyBackingStoreBuffer()` (sandbox.h, lines 267-274).  The build-time
flag `V8_SANDBOXED_POINTERS` is a configuration parameter; the process-wide
singleton sandbox reached through `GetProcessWideSandbox()` is passed
explicitly.  `nullptr` is the numeric address `0`. -/
def EmptyBackingStoreBuffer (sandboxed_pointers_enabled : Bool)
    (process_wide_sandbox : Sandbox) : Nat :=
  if sandboxed_pointers_enabled then
    process_wide_sandbox.constants_.empty_backing_store_buffer
  else 0

/-- One lifecycle transition of the sandbox.  `initialize` runs the
spec-modelled `Initialize` under its spec preconditions (not yet
initialized, not disabled, sizes positive and granularity-aligned, the
fallback size smaller than the logical size, the logical size within the
canonical address space) against a well-formed address-space capability;
`disable` is a non-aborting `Disable()` call; `tearDown` is `TearDown()`. -/
inductive Step : Sandbox → Sandbox → Prop where
  | initialization (s : Sandbox) (vas : VirtualAddressSpace)
      (size guard_region_size size_to_reserve : Nat)
      (hwf : vas.WellFormed)
      (hninit : s.initialized_ = false)
      (hndis : s.disabled_ = false)
      (hszpos : 0 < size)
      (hszbound : size ≤ 2 ^ 48)
      (hszgran : size % vas.allocation_granularity = 0)
      (hstrpos : 0 < size_to_reserve)
      (hstrlt : size_to_reserve < size)
      (hstrgran : size_to_reserve % vas.allocation_granularity = 0) :
      Step s (s.Initialize vas size guard_region_size size_to_reserve).2
  | disabling (s s' : Sandbox) (h : s.Disable = some s') : Step s s'
  | teardown (s : Sandbox) : Step s s.TearDown

/-- The reachable states of the sandbox: the default-constructed state
(`Sandbox() = default`, every field at its sentinel) closed under lifecycle
steps. -/
inductive Reachable : Sandbox → Prop where
  | init : Reachable {}
  | step (s s' : Sandbox) (hr : Reachable s) (hs : Step s s') : Reachable s'

/-- The lifecycle invariant: `end_` tracks `base_ + size_`, the sum never
wraps 64 bits, an uninitialized sandbox sits at the zero sentinels with the
constants reset, and an initialized sandbox has a non-null base and a
positive size. -/
def GoodState (s : Sandbox) : Prop :=
  s.end_ = s.base_ + s.size_ ∧
  s.base_ + s.size_ < 2 ^ 64 ∧
  (s.initialized_ = false →
    s.base_ = 0 ∧ s.size_ = 0 ∧ s.constants_.empty_backing_store_buffer_ = 0) ∧
  (s.initialized_ = true → 0 < s.base_ ∧ 0 < s.size_)

/-- A concrete well-formed address-space capability used for witnesses: it
reserves every request that fits below `2 ^ 48` at base address `4096`. -/
def demoVas : VirtualAddressSpace :=
  { allocation_granularity := 4096,
    reserve := fun n => if 4096 + n ≤ 2 ^ 48 then some 4096 else none }

/-- A concrete address-space capability whose every reservation fails, used
for the initialization-failure witnesses. -/
def failVas : VirtualAddressSpace :=
  { allocation_granularity := 4096, reserve := fun _ => none }

/-- A concrete successfully initialized sandbox: logical size 16384,
guard regions of 8192 on each side, fallback size 8192, reserved by
`demoVas` at base 4096 (so `base_ = 12288`, `end_ = 28672`). -/
def demoState : Sandbox :=
  (({} : Sandbox).Initialize demoVas 16384 8192 8192).2

theorem pow48_eq : (2 : Nat) ^ 48 = 281474976710656 := by norm_num

theorem pow64_eq : (2 : Nat) ^ 64 = 18446744073709551616 := by norm_num

/-- Lifecycle steps preserve the invariant. -/
theorem step_preserves_good :
    ∀ s s' : Sandbox, Step s s' → GoodState s → GoodState s' := by
  intro s s' hs ih
  cases hs with
  | initialization vas size guard_region_size size_to_reserve hwf hninit hndis
      hszpos hszbound hszgran hstrpos hstrlt hstrgran =>
      rcases h1 : vas.reserve (size + 2 * guard_region_size) with _ | r
      · rcases h2 : vas.reserve size_to_reserve with _ | r
        · simpa [Sandbox.Initialize, h1, h2] using ih
        · obtain ⟨hr0, hrb⟩ := hwf.2 _ _ h2
          have hb : (s.Initialize vas size guard_region_size
              size_to_reserve).2.base_ = r := by
            simp [Sandbox.Initialize, h1, h2, Sandbox.InitializeConstants,
              SandboxedPointerConstants.set_empty_backing_store_buffer]
          have he : (s.Initialize vas size guard_region_size
              size_to_reserve).2.end_ = r + size := by
            simp [Sandbox.Initialize, h1, h2, Sandbox.InitializeConstants,
              SandboxedPointerConstants.set_empty_backing_store_buffer]
          have hsz : (s.Initialize vas size guard_region_size
              size_to_reserve).2.size_ = size := by
            simp [Sandbox.Initialize, h1, h2, Sandbox.InitializeConstants,
              SandboxedPointerConstants.set_empty_backing_store_buffer]
          have hi : (s.Initialize vas size guard_region_size
              size_to_reserve).2.initialized_ = true := by
            simp [Sandbox.Initialize, h1, h2, Sandbox.InitializeConstants,
              SandboxedPointerConstants.set_empty_backing_store_buffer]
          refine ⟨?_, ?_, ?_, ?_⟩
          · rw [he, hb, hsz]
          · rw [hb, hsz, pow64_eq]
            rw [pow48_eq] at hrb hszbound
            omega
          · intro h
            rw [hi] at h
            cases h
          · intro _
            rw [hb, hsz]
            exact ⟨hr0, hszpos⟩
      · obtain ⟨hr0, hrb⟩ := hwf.2 _ _ h1
        have hb : (s.Initialize vas size guard_region_size
            size_to_reserve).2.base_ = r + guard_region_size := by
          simp [Sandbox.Initialize, h1, Sandbox.InitializeConstants,
            SandboxedPointerConstants.set_empty_backing_store_buffer]
        have he : (s.Initialize vas size guard_region_size
            size_to_reserve).2.end_ = r + guard_region_size + size := by
          simp [Sandbox.Initialize, h1, Sandbox.InitializeConstants,
            SandboxedPointerConstants.set_empty_backing_store_buffer]
        have hsz : (s.Initialize vas size guard_region_size
            size_to_reserve).2.size_ = size := by
          simp [Sandbox.Initialize, h1, Sandbox.InitializeConstants,
            SandboxedPointerConstants.set_empty_backing_store_buffer]
        have hi : (s.Initialize vas size guard_region_size
            size_to_reserve).2.initialized_ = true := by
          simp [Sandbox.Initialize, h1, Sandbox.InitializeConstants,
            SandboxedPointerConstants.set_empty_backing_store_buffer]
        refine ⟨?_, ?_, ?_, ?_⟩
        · rw [he, hb, hsz]
        · rw [hb, hsz, pow64_eq]
          rw [pow48_eq] at hrb
          omega
        · intro h
          rw [hi] at h
          cases h
        · intro _
          rw [hb, hsz]
          exact ⟨Nat.lt_of_lt_of_le hr0 (Nat.le_add_right r guard_region_size),
            hszpos⟩
  | disabling t h =>
      rcases hi : s.initialized_ with _ | _
      · simp [Sandbox.Disable, hi] at h
        obtain ⟨he, hlt, hun, _⟩ := ih
        subst h
        refine ⟨he, hlt, fun _ => hun hi, fun hc => ?_⟩
        simp at hc
      · simp [Sandbox.Disable, hi] at h
  | teardown =>
      exact ⟨rfl, by simp [Sandbox.TearDown, kNullAddress],
        fun _ => ⟨rfl, rfl, rfl⟩, fun h => by simp [Sandbox.TearDown] at h⟩

/-- Every reachable state satisfies the lifecycle invariant. -/
theorem reachable_good : ∀ s : Sandbox, Reachable s → GoodState s := by
  intro s hr
  induction hr with
  | init =>
      exact ⟨rfl, by decide, fun _ => ⟨rfl, rfl, rfl⟩, fun h => by simp at h⟩
  | step s s' hr hs ih => exact step_preserves_good s s' hs ih

theorem demoVas_wf : demoVas.WellFormed := by
  refine ⟨by decide, ?_⟩
  intro n r h
  have h' : (if 4096 + n ≤ 2 ^ 48 then some 4096 else (none : Option Nat))
      = some r := h
  split at h'
  · cases h'
    rename_i hc
    exact ⟨by decide, hc⟩
  · cases h'

theorem demoState_reachable : Reachable demoState :=
  Reachable.step {} demoState Reachable.init
    (Step.initialization {} demoVas 16384 8192 8192 demoVas_wf rfl rfl
      (by decide) (by decide) (by decide) (by decide) (by decide)
      (by decide))

/-- C2: in every reachable state of the Sandbox, `is_partially_reserved()`
returns true exactly when `reservation_size() < size()`; the equation holds
before initialization, after successful full or partial initialization, and
after `TearDown`. -/
theorem partially_reserved_iff_reservation_lt_size :
    ∀ s : Sandbox, Reachable s →
      (s.is_partially_reserved = true ↔ s.reservation_size < s.size) := by
  intro s _
  simp [Sandbox.is_partially_reserved, Sandbox.reservation_size, Sandbox.size]

theorem partially_reserved_iff_witness :
    (({} : Sandbox).is_partially_reserved = true ↔
      ({} : Sandbox).reservation_size < ({} : Sandbox).size) ∧
    (demoState.is_partially_reserved = true ↔
      demoState.reservation_size < demoState.size) :=
  ⟨partially_reserved_iff_reservation_lt_size {} Reachable.init,
   partially_reserved_iff_reservation_lt_size demoState demoState_reachable⟩

/-- C5: in every reachable state of the Sandbox, `end()` equals
`base() + size()`: it holds in the uninitialized all-zero state, is
established by every successful initialization path (full and partial), and
is restored by `TearDown`. -/
theorem end_eq_base_add_size :
    ∀ s : Sandbox, Reachable s → s.end_ = s.base + s.size := by
  intro s hr
  exact (reachable_good s hr).1

theorem end_eq_base_add_size_witness :
    ({} : Sandbox).end_ = ({} : Sandbox).base + ({} : Sandbox).size ∧
    demoState.end_ = demoState.base + demoState.size :=
  ⟨end_eq_base_add_size {} Reachable.init,
   end_eq_base_add_size demoState demoState_reachable⟩

/-- C9: for every pointer value, the pointer overload `Contains(void*)`
returns exactly what the address overload `Contains(Address)` returns on
the reinterpreted numeric address: the two entry points are equivalent. -/
theorem contains_ptr_eq_contains :
    ∀ (s : Sandbox) (p : Nat), s.ContainsPtr p = s.Contains p := by
  intro s p
  rfl

/-- C8: `base_address()`, `end_address()`, `size_address()` return the
storage locations of the `base_`, `end_`, `size_` fields themselves (three
distinct locations, not values), and dereferencing each one yields the
current value of the corresponding field, in every state of the sandbox's
lifetime. -/
theorem field_address_deref :
    ∀ s : Sandbox,
      s.deref s.base_address = s.base ∧
      s.deref s.end_address = s.end_ ∧
      s.deref s.size_address = s.size ∧
      s.base_address ≠ s.end_address ∧
      s.base_address ≠ s.size_address ∧
      s.end_address ≠ s.size_address := by
  intro s
  refine ⟨rfl, rfl, rfl, ?_, ?_, ?_⟩ <;>
    simp [Sandbox.base_address, Sandbox.end_address, Sandbox.size_address]

/-- C7: the free function `EmptyBackingStoreBuffer()` returns the singleton
sandbox's constants' value when sandboxed-pointer support is compiled in,
and the null sentinel directly — independent of any singleton — when it is
compiled out. -/
theorem empty_backing_store_buffer_fn :
    ∀ s t : Sandbox,
      EmptyBackingStoreBuffer true s
          = s.constants_.empty_backing_store_buffer ∧
      EmptyBackingStoreBuffer false s = kNullAddress ∧
      EmptyBackingStoreBuffer false s = EmptyBackingStoreBuffer false t := by
  intro s t
  exact ⟨rfl, rfl, rfl⟩

/-- C6: before initialization (in any reachable uninitialized state) the
empty-backing-store constant reads as the null sentinel; after
`set_empty_backing_store_buffer(X)` both the value accessor and the
dereference of the address-of accessor yield `X`; `Reset()` restores the
null sentinel. -/
theorem constants_lifecycle :
    (∀ s : Sandbox, Reachable s → s.is_initialized = false →
        s.constants_.empty_backing_store_buffer = kNullAddress) ∧
    (∀ (c : SandboxedPointerConstants) (x : Nat),
        (c.set_empty_backing_store_buffer x).empty_backing_store_buffer = x ∧
        (c.set_empty_backing_store_buffer x).derefAt
            (c.set_empty_backing_store_buffer
              x).empty_backing_store_buffer_address = x ∧
        c.Reset.empty_backing_store_buffer = kNullAddress) := by
  constructor
  · intro s hr hun
    exact ((reachable_good s hr).2.2.1 hun).2.2
  · intro c x
    exact ⟨rfl, rfl, rfl⟩

theorem constants_lifecycle_witness :
    ({} : Sandbox).constants_.empty_backing_store_buffer = kNullAddress ∧
    (SandboxedPointerConstants.set_empty_backing_store_buffer {}
        42).empty_backing_store_buffer = 42 :=
  ⟨constants_lifecycle.1 {} Reachable.init rfl,
   (constants_lifecycle.2 {} 42).1⟩

/-- C10: on an uninitialized sandbox, `Disable()` succeeds and mutates only
the `disabled_` flag — geometry, lifecycle, capability and constants fields
are all unchanged — and calling it again on the already-disabled
uninitialized sandbox succeeds and leaves the state identical. -/
theorem disable_frame :
    ∀ s : Sandbox, s.initialized_ = false →
      s.Disable = some { s with disabled_ := true } ∧
      ∀ t, s.Disable = some t →
        t.base_ = s.base_ ∧ t.end_ = s.end_ ∧ t.size_ = s.size_ ∧
        t.reservation_base_ = s.reservation_base_ ∧
        t.reservation_size_ = s.reservation_size_ ∧
        t.initialized_ = s.initialized_ ∧
        t.address_space_ = s.address_space_ ∧
        t.sandbox_page_allocator_ = s.sandbox_page_allocator_ ∧
        t.constants_ = s.constants_ ∧
        t.Disable = some t := by
  intro s h
  have hd : s.Disable = some { s with disabled_ := true } := by
    simp [Sandbox.Disable, h]
  refine ⟨hd, ?_⟩
  intro t ht
  rw [hd] at ht
  cases ht
  refine ⟨rfl, rfl, rfl, rfl, rfl, rfl, rfl, rfl, rfl, ?_⟩
  simp [Sandbox.Disable, h]

theorem disable_frame_witness :
    ({} : Sandbox).Disable = some { disabled_ := true } ∧
    ({ disabled_ := true } : Sandbox).Disable = some { disabled_ := true } :=
  ⟨(disable_frame {} rfl).1,
   ((disable_frame {} rfl).2 { disabled_ := true }
      (disable_frame {} rfl).1).2.2.2.2.2.2.2.2.2⟩

/-- C4: `Disable()` on an uninitialized sandbox succeeds and afterwards
`is_disabled()` is true and `is_enabled()` is false; on an initialized
sandbox (in particular on the result of any successful `Initialize`) it
signals the precondition violation immediately instead of no-opping; and
once disabled, every lifecycle step keeps the sandbox disabled
(permanence). -/
theorem disable_lifecycle :
    (∀ s : Sandbox, s.initialized_ = false →
        ∀ t, s.Disable = some t →
          t.is_disabled = true ∧ t.is_enabled = false) ∧
    (∀ s : Sandbox, s.initialized_ = true → s.Disable = none) ∧
    (∀ (s : Sandbox) (vas : VirtualAddressSpace)
        (size guard_region_size size_to_reserve : Nat),
        (s.Initialize vas size guard_region_size size_to_reserve).1 = true →
          (s.Initialize vas size guard_region_size
            size_to_reserve).2.Disable = none) ∧
    (∀ s t : Sandbox, Step s t →
        s.is_disabled = true → t.is_disabled = true) := by
  refine ⟨?_, ?_, ?_, ?_⟩
  · intro s h t ht
    simp [Sandbox.Disable, h] at ht
    cases ht
    exact ⟨rfl, rfl⟩
  · intro s h
    simp [Sandbox.Disable, h]
  · intro s vas size guard_region_size size_to_reserve hsucc
    rcases h1 : vas.reserve (size + 2 * guard_region_size) with _ | r
    · rcases h2 : vas.reserve size_to_reserve with _ | r
      · simp [Sandbox.Initialize, h1, h2] at hsucc
      · simp [Sandbox.Initialize, h1, h2, Sandbox.InitializeConstants,
          SandboxedPointerConstants.set_empty_backing_store_buffer,
          Sandbox.Disable]
    · simp [Sandbox.Initialize, h1, Sandbox.InitializeConstants,
        SandboxedPointerConstants.set_empty_backing_store_buffer,
        Sandbox.Disable]
  · intro s t hst hd
    cases hst with
    | initialization vas size guard_region_size size_to_reserve hwf hninit
        hndis hszpos hszbound hszgran hstrpos hstrlt hstrgran =>
        have hd' : s.disabled_ = true := hd
        rw [hndis] at hd'
        cases hd'
    | disabling t h =>
        rcases hi : s.initialized_ with _ | _
        · simp [Sandbox.Disable, hi] at h
          cases h
          exact rfl
        · simp [Sandbox.Disable, hi] at h
    | teardown => exact hd

theorem disable_lifecycle_witness :
    (({ disabled_ := true } : Sandbox).is_disabled = true ∧
      ({ disabled_ := true } : Sandbox).is_enabled = false) ∧
    demoState.Disable = none :=
  ⟨disable_lifecycle.1 {} rfl { disabled_ := true } rfl,
   disable_lifecycle.2.2.1 {} demoVas 16384 8192 8192 (by decide)⟩

/-- C3: if the address-space capability fails the full reservation and also
the smaller fallback reservation, `Initialize` returns false and the
sandbox state is exactly what it was: no geometry field is mutated and an
uninitialized sandbox stays uninitialized (atomicity on error). -/
theorem initialize_failure_atomic :
    ∀ (s : Sandbox) (vas : VirtualAddressSpace)
      (size guard_region_size size_to_reserve : Nat),
      vas.reserve (size + 2 * guard_region_size) = none →
      vas.reserve size_to_reserve = none →
        (s.Initialize vas size guard_region_size size_to_reserve).1 = false ∧
        (s.Initialize vas size guard_region_size size_to_reserve).2 = s ∧
        (s.initialized_ = false →
          (s.Initialize vas size guard_region_size
            size_to_reserve).2.is_initialized = false) := by
  intro s vas size guard_region_size size_to_reserve h1 h2
  have hfail : s.Initialize vas size guard_region_size size_to_reserve
      = (false, s) := by
    simp [Sandbox.Initialize, h1, h2]
  rw [hfail]
  exact ⟨rfl, rfl, fun h => h⟩

theorem initialize_failure_atomic_witness :
    (({} : Sandbox).Initialize failVas 16384 8192 8192).1 = false ∧
    (({} : Sandbox).Initialize failVas 16384 8192 8192).2 = ({} : Sandbox) :=
  ⟨(initialize_failure_atomic {} failVas 16384 8192 8192 rfl rfl).1,
   (initialize_failure_atomic {} failVas 16384 8192 8192 rfl rfl).2.1⟩

/-- C1: in every reachable state, `Contains(a)` is true exactly when
`base() ≤ a < base() + size()`; when the sandbox is uninitialized,
`base == size == 0` and `Contains` returns false for every address; when it
is initialized, `Contains(base())` is true, `Contains(end())` is false,
`Contains(base() - 1)` is false, and `Contains(a)` is true for every `a`
with `base() ≤ a < end()`. -/
theorem contains_characterization :
    ∀ s : Sandbox, Reachable s →
      (∀ a : Nat, s.Contains a = true ↔ s.base ≤ a ∧ a < s.base + s.size) ∧
      (s.is_initialized = false →
        s.base = 0 ∧ s.size = 0 ∧ ∀ a : Nat, s.Contains a = false) ∧
      (s.is_initialized = true →
        s.Contains s.base = true ∧
        s.Contains s.end_ = false ∧
        s.Contains (s.base - 1) = false ∧
        ∀ a : Nat, s.base ≤ a → a < s.end_ → s.Contains a = true) := by
  intro s hr
  obtain ⟨hend, hlt, hun, hin⟩ := reachable_good s hr
  have hmod : (s.base_ + s.size_) % 2 ^ 64 = s.base_ + s.size_ :=
    Nat.mod_eq_of_lt hlt
  have hiff : ∀ a : Nat,
      s.Contains a = true ↔ s.base_ ≤ a ∧ a < s.base_ + s.size_ := by
    intro a
    rw [Sandbox.Contains, hmod]
    simp [Bool.and_eq_true, decide_eq_true_eq]
  simp only [Sandbox.base, Sandbox.size, Sandbox.is_initialized]
  refine ⟨hiff, ?_, ?_⟩
  · intro h
    obtain ⟨hb0, hs0, _⟩ := hun h
    refine ⟨hb0, hs0, ?_⟩
    intro a
    cases hc : s.Contains a with
    | false => rfl
    | true =>
        have := (hiff a).mp hc
        rw [hb0, hs0] at this
        omega
  · intro h
    obtain ⟨hbpos, hspos⟩ := hin h
    refine ⟨?_, ?_, ?_, ?_⟩
    · exact (hiff s.base_).mpr ⟨Nat.le_refl _, by omega⟩
    · cases hc : s.Contains s.end_ with
      | false => rfl
      | true =>
          have := (hiff s.end_).mp hc
          rw [hend] at this
          omega
    · cases hc : s.Contains (s.base_ - 1) with
      | false => rfl
      | true =>
          have := (hiff (s.base_ - 1)).mp hc
          omega
    · intro a h1 h2
      rw [hend] at h2
      exact (hiff a).mpr ⟨h1, h2⟩

theorem contains_characterization_witness :
    demoState.Contains demoState.base = true ∧
    demoState.Contains demoState.end_ = false ∧
    demoState.Contains (demoState.base - 1) = false ∧
    ({} : Sandbox).Contains 0 = false :=
  ⟨((contains_characterization demoState demoState_reachable).2.2
      (by decide)).1,
   ((contains_characterization demoState demoState_reachable).2.2
      (by decide)).2.1,
   ((contains_characterization demoState demoState_reachable).2.2
      (by decide)).2.2.1,
   ((contains_characterization {} Reachable.init).2.1 rfl).2.2 0⟩

end V8Sandbox
